/-
  Verification of the image-gen MCP server (src/index.ts) against its
  natural-language specification.

  The TypeScript source is shallowly embedded: JavaScript runtime values that
  flow through the tool-call handler are modelled by `JsPrim`/`JsVal`, tool
  arguments objects by association lists of fields, and the per-tool
  validators, payload builders and the call-handler dispatch (including its
  catch block) by executable Lean functions translated line by line from
  src/index.ts.  Network and filesystem interactions are modelled by explicit
  oracle environments plus an effect trace, so that "no I/O happens before X"
  becomes a statement about the trace.

  JS numbers are modelled by `Frac`, exact fractions with positive
  denominator: every numeric constant and coercion the program performs is an
  exact decimal fraction well inside binary64 territory, so this is faithful
  on all values that occur.  String helpers are implemented over character
  lists so that every definition evaluates inside the kernel.
-/
import Mathlib

namespace ImageGen

/-! ## Exact JS numbers -/

/-- An exact JS number: a fraction with positive denominator.  Equality is
representation equality (all claim-relevant numeric comparisons go through
`toRat` / cross multiplication, and every construction site below produces a
canonical representation). -/
structure Frac where
  num : Int
  den : Int
  dpos : 0 < den

instance : DecidableEq Frac := fun a b =>
  decidable_of_iff (a.num = b.num ∧ a.den = b.den)
    (by cases a; cases b; simp)

/-- The integer `n` as a `Frac`. -/
def Frac.ofInt (n : Int) : Frac := ⟨n, 1, one_pos⟩

/-- `n` tenths; `tenths 35` is the literal `3.5`. -/
def Frac.tenths (n : Int) : Frac := ⟨n, 10, by norm_num⟩

/-- Strict order, by cross multiplication (denominators are positive). -/
def Frac.blt (a b : Frac) : Bool := decide (a.num * b.den < b.num * a.den)

/-- The rational value of a `Frac`. -/
def Frac.toRat (a : Frac) : ℚ := (a.num : ℚ) / (a.den : ℚ)

/-- Exact addition (no normalization). -/
def Frac.add (a b : Frac) : Frac :=
  ⟨a.num * b.den + b.num * a.den, a.den * b.den, mul_pos a.dpos b.dpos⟩

/-- Exact multiplication (no normalization). -/
def Frac.mul (a b : Frac) : Frac :=
  ⟨a.num * b.num, a.den * b.den, mul_pos a.dpos b.dpos⟩

def Frac.neg (a : Frac) : Frac := ⟨-a.num, a.den, a.dpos⟩

/-- `Math.round`: half-up toward +infinity, `⌊q + 1/2⌋`. -/
def Frac.round (a : Frac) : Int := Int.fdiv (2 * a.num + a.den) (2 * a.den)

/-! ## Kernel-computable string helpers (JS string/`path` builtins) -/

def charsStr (l : List Char) : String := String.mk l

/-- JS `String.prototype.trim`. -/
def trimChars (l : List Char) : List Char :=
  ((l.dropWhile Char.isWhitespace).reverse.dropWhile Char.isWhitespace).reverse

def strTrim (s : String) : String := charsStr (trimChars s.data)

/-- `split` on a single-character separator (every separator the source
uses — `'/'`, `'.'`, `','` — is one character). -/
def splitChar (c : Char) : List Char → List (List Char)
  | [] => [[]]
  | x :: rest =>
      let r := splitChar c rest
      if x = c then [] :: r
      else
        match r with
        | [] => [[x]]
        | h :: t => (x :: h) :: t

def strSplitChar (c : Char) (s : String) : List String :=
  (splitChar c s.data).map charsStr

/-- JS `s.startsWith(p)`. -/
def strStartsWith (s p : String) : Bool :=
  p.data.isPrefixOf s.data

/-- The numeric value of a digit string. -/
def digitsToNat (l : List Char) : Nat :=
  l.foldl (fun acc c => acc * 10 + (c.toNat - 48)) 0

/-! ## JavaScript value model

Primitive JS values.  `pnan` is the NaN number; every other number is an
exact `Frac`. -/
inductive JsPrim where
  | pnum (q : Frac)
  | pnan
  | pstr (s : String)
  | pbool (b : Bool)
  | pundefined
  | pnull
  deriving DecidableEq

/-- A JS value as it appears as a field of an arguments object: a primitive
or an array of primitives.  (Nested arrays/objects as field values are not
modelled; no claim concerns them.) -/
inductive JsVal where
  | prim (p : JsPrim)
  | varr (xs : List JsPrim)
  deriving DecidableEq

/-- A JS object: association list of named fields (first binding wins). -/
abbrev JsObj : Type := List (String × JsVal)

/-- The raw `request.params.arguments` value handed to a validator: either an
object, or some non-object value (`undefined`, a string, `null`, ...), which
every validator rejects at its `typeof value !== 'object' || value === null`
guard. -/
inductive JsArgs where
  | obj (fields : JsObj)
  | nonObject
  deriving DecidableEq

/-- Property access `v.k`: JS yields `undefined` for a missing property. -/
def objGet (o : JsObj) (k : String) : JsVal :=
  match o.find? (fun kv => kv.1 = k) with
  | some kv => kv.2
  | none => .prim .pundefined

/-- Property update `v.k = x` (used for the validator's in-place numeric
coercion of `steps` / `batch_size`). -/
def objSet (o : JsObj) (k : String) (x : JsVal) : JsObj :=
  match o with
  | [] => [(k, x)]
  | kv :: rest => if kv.1 = k then (k, x) :: rest else kv :: objSet rest k x

/-- JS truthiness of a value. -/
def jsTruthy : JsVal → Bool
  | .prim (.pnum q) => decide (q.num ≠ 0)
  | .prim .pnan => false
  | .prim (.pstr s) => decide (s ≠ "")
  | .prim (.pbool b) => b
  | .prim .pundefined => false
  | .prim .pnull => false
  | .varr _ => true

/-- `typeof x === 'string'`. -/
def isString : JsVal → Bool
  | .prim (.pstr _) => true
  | _ => false

/-- `x !== undefined`. -/
def isDefined (v : JsVal) : Bool :=
  v ≠ JsVal.prim .pundefined

/-- A JS number: an exact fraction, or `none` for NaN. -/
abbrev JsNum : Type := Option Frac

/-- Parse the significant part of a decimal numeric literal
(digits, optionally followed by a point and digits) as a fraction.
Returns `none` when the string is not such a literal. -/
def parseDecimal (s : String) : Option Frac :=
  match strSplitChar '.' s with
  | [ip] =>
      if ip ≠ "" ∧ ip.data.all Char.isDigit then
        some (Frac.ofInt (digitsToNat ip.data))
      else none
  | [ip, fp] =>
      if (ip ≠ "" ∨ fp ≠ "") ∧ ip.data.all Char.isDigit ∧
          fp.data.all Char.isDigit then
        some (Frac.add (Frac.ofInt (digitsToNat ip.data))
          ⟨digitsToNat fp.data, (10 : Int) ^ fp.data.length, by positivity⟩)
      else none
  | _ => none

/-- `Number(s)` on a string: trimmed; empty string is `0`; an optionally
signed decimal literal parses exactly; anything else is NaN.  (Hex/binary and
`Infinity` literals are elided; no claim involves them.) -/
def stringToNumber (s : String) : JsNum :=
  let t := strTrim s
  if t = "" then some (Frac.ofInt 0)
  else
    match t.data with
    | '-' :: rest => (parseDecimal (charsStr rest)).map Frac.neg
    | '+' :: rest => parseDecimal (charsStr rest)
    | _ => parseDecimal t

/-- ToNumber on a primitive. -/
def primToNumber : JsPrim → JsNum
  | .pnum q => some q
  | .pnan => none
  | .pstr s => stringToNumber s
  | .pbool b => some (Frac.ofInt (if b then 1 else 0))
  | .pundefined => none
  | .pnull => some (Frac.ofInt 0)

/-- `Number(x)`: JS ToNumber on our value model.  Arrays convert through
their string representation; we model the empty and singleton cases (which JS
converts to `0` and to the element's conversion) and make longer arrays NaN. -/
def jsToNumber : JsVal → JsNum
  | .prim p => primToNumber p
  | .varr [] => some (Frac.ofInt 0)
  | .varr [p] => primToNumber p
  | .varr (_ :: _ :: _) => none

/-- The validators' `isNaN(n) || n < lo || n > hi` rejection test:
`true` iff the converted number is NaN or out of the closed range. -/
def outOfRange (n : JsNum) (lo hi : Frac) : Bool :=
  match n with
  | none => true
  | some q => Frac.blt q lo || Frac.blt hi q

/-! ## Argument validators (src/index.ts lines 520-611) -/

/-- `isGenerateImageArgs` (lines 520-542) as a predicate.  The in-place
coercion (`v.steps = steps`) is modelled separately by
`coerceGenerateImageArgs`. -/
def isGenerateImageArgs : JsArgs → Bool
  | .nonObject => false
  | .obj v =>
      if !isString (objGet v "prompt") then false
      else if isDefined (objGet v "negative_prompt") &&
          !isString (objGet v "negative_prompt") then false
      else if isDefined (objGet v "steps") &&
          outOfRange (jsToNumber (objGet v "steps"))
            (Frac.ofInt 1) (Frac.ofInt 150) then false
      else if isDefined (objGet v "batch_size") &&
          outOfRange (jsToNumber (objGet v "batch_size"))
            (Frac.ofInt 1) (Frac.ofInt 4) then false
      else true

/-- The side effect of `isGenerateImageArgs` on a successfully validated
object: `steps` and `batch_size` are overwritten with their `Number(...)`
coercions when present (lines 532 and 538). -/
def coerceGenerateImageArgs (v : JsObj) : JsObj :=
  let v1 :=
    if isDefined (objGet v "steps") then
      objSet v "steps" (match jsToNumber (objGet v "steps") with
        | some q => .prim (.pnum q)
        | none => .prim .pnan)
    else v
  if isDefined (objGet v1 "batch_size") then
    objSet v1 "batch_size" (match jsToNumber (objGet v1 "batch_size") with
      | some q => .prim (.pnum q)
      | none => .prim .pnan)
  else v1

/-- `isSetModelArgs` (lines 544-548). -/
def isSetModelArgs : JsArgs → Bool
  | .nonObject => false
  | .obj v => isString (objGet v "model_name")

/-- `Array.isArray(x) && x.every(img => typeof img === 'string')`. -/
def isStringArray : JsVal → Bool
  | .varr xs => xs.all (fun p => match p with | .pstr _ => true | _ => false)
  | _ => false

/-- `isNaN(n) || n < 1` rejection test for the upscale numeric fields. -/
def belowOne (n : JsNum) : Bool :=
  match n with
  | none => true
  | some q => Frac.blt q (Frac.ofInt 1)

/-- `isUpscaleImagesArgs` (lines 550-585). -/
def isUpscaleImagesArgs : JsArgs → Bool
  | .nonObject => false
  | .obj v =>
      if !isStringArray (objGet v "images") then false
      else if isDefined (objGet v "resize_mode") &&
          !(objGet v "resize_mode" = JsVal.prim (.pstr "0") ||
            objGet v "resize_mode" = JsVal.prim (.pstr "1")) then false
      else if isDefined (objGet v "upscaling_resize") &&
          belowOne (jsToNumber (objGet v "upscaling_resize")) then false
      else if isDefined (objGet v "upscaling_resize_w") &&
          belowOne (jsToNumber (objGet v "upscaling_resize_w")) then false
      else if isDefined (objGet v "upscaling_resize_h") &&
          belowOne (jsToNumber (objGet v "upscaling_resize_h")) then false
      else if isDefined (objGet v "upscaler_1") &&
          !isString (objGet v "upscaler_1") then false
      else if isDefined (objGet v "upscaler_2") &&
          !isString (objGet v "upscaler_2") then false
      else if isDefined (objGet v "output_path") &&
          !isString (objGet v "output_path") then false
      else true

/-- `isHiresFixImageArgs` (lines 587-611). -/
def isHiresFixImageArgs : JsArgs → Bool
  | .nonObject => false
  | .obj v =>
      if !isString (objGet v "image_path") then false
      else if isDefined (objGet v "hr_scale") &&
          outOfRange (jsToNumber (objGet v "hr_scale"))
            (Frac.ofInt 1) (Frac.ofInt 4) then false
      else if isDefined (objGet v "hr_upscaler") &&
          !isString (objGet v "hr_upscaler") then false
      else if isDefined (objGet v "denoising_strength") &&
          outOfRange (jsToNumber (objGet v "denoising_strength"))
            (Frac.ofInt 0) (Frac.ofInt 1) then false
      else if isDefined (objGet v "steps") &&
          outOfRange (jsToNumber (objGet v "steps"))
            (Frac.ofInt 1) (Frac.ofInt 150) then false
      else true

/-! ## JS operators and library helpers used by the handler -/

/-- JS `x || y`. -/
def jsOr (x y : JsVal) : JsVal :=
  if jsTruthy x then x else y

/-- JS `x ?? y` (nullish coalescing). -/
def jsNullish (x y : JsVal) : JsVal :=
  if x = JsVal.prim .pundefined ∨ x = JsVal.prim .pnull then y else x

/-- JS `!!x`. -/
def jsBang2 (x : JsVal) : Bool :=
  jsTruthy x

/-- `metadata.width || 1024` where the metadata field is a number or
`undefined`: the default replaces `undefined` and the falsy number `0`. -/
def metaOr (x : Option Frac) (d : Frac) : Frac :=
  match x with
  | none => d
  | some q => if q.num = 0 then d else q

/-- NaN-propagating multiplication of JS numbers. -/
def numMul (a b : JsNum) : JsNum :=
  match a, b with
  | some x, some y => some (Frac.mul x y)
  | _, _ => none

/-- `Math.round` on a JS number; NaN maps to NaN. -/
def mathRound (n : JsNum) : JsNum :=
  n.map (fun q => Frac.ofInt q.round)

/-- Decimal digits of `rem/den`, up to `fuel` digits; exact for terminating
expansions, which covers every number the program produces. -/
def fracDigits : Nat → Nat → Nat → List Nat
  | 0, _, _ => []
  | _, 0, _ => []
  | fuel + 1, rem, den =>
      if rem = 0 then []
      else (rem * 10) / den :: fracDigits fuel ((rem * 10) % den) den

/-- JS number-to-string conversion (template-literal interpolation), exact
for integers and terminating decimal expansions. -/
def fracToString (q : Frac) : String :=
  let sign := if q.num < 0 then "-" else ""
  let n := q.num.natAbs
  let d := q.den.toNat
  if d = 1 then sign ++ toString n
  else
    let ds := fracDigits 64 (n % d) d
    if ds.isEmpty then sign ++ toString (n / d)
    else sign ++ toString (n / d) ++ "." ++ String.join (ds.map toString)

/-- JS ToString on a primitive. -/
def primToString : JsPrim → String
  | .pnum q => fracToString q
  | .pnan => "NaN"
  | .pstr s => s
  | .pbool b => if b then "true" else "false"
  | .pundefined => "undefined"
  | .pnull => "null"

/-- JS ToString on a value (arrays join their elements with commas). -/
def jsValToString : JsVal → String
  | .prim p => primToString p
  | .varr xs => String.intercalate "," (xs.map primToString)

/-- `${x}` for an optional number (e.g. `metadata.width` in the hires.fix
message): `undefined` interpolates as the string "undefined". -/
def optNumToString : Option Frac → String
  | none => "undefined"
  | some q => fracToString q

/-- `${x}` for a computed JS number (e.g. `targetWidth`): NaN interpolates
as "NaN". -/
def jsNumToString : JsNum → String
  | none => "NaN"
  | some q => fracToString q

/-- `path.basename` (posix): the last non-empty `/`-separated component.
(The special cases of a root path are irrelevant to the claims.) -/
def basename (s : String) : String :=
  match ((strSplitChar '/' s).filter (fun c => c ≠ "")).getLast? with
  | some c => c
  | none => s

/-- `path.join dir file` for the simple two-argument uses in the source.
Dot-segment normalization is elided: no claim depends on it. -/
def pathJoin (a b : String) : String :=
  if a = "" then b else a ++ "/" ++ b

/-- `path.normalize`: modelled as the identity; the claims never exercise
dot-segment or separator normalization. -/
def pathNormalize (s : String) : String := s

/-! ## Environment-sourced configuration (src/index.ts lines 17-29)

Values of `parseInt`/string env parsing at process start; modelled as an
abstract immutable record so theorems quantify over any configuration. -/
structure Config where
  DEFAULT_OUTPUT_DIR : String
  SD_RESIZE_MODE : Int
  SD_UPSCALE_MULTIPLIER : Int
  SD_UPSCALE_WIDTH : Int
  SD_UPSCALE_HEIGHT : Int
  SD_UPSCALER_1 : String
  SD_UPSCALER_2 : String
  deriving DecidableEq

/-- The configuration obtained when no environment variable is set
(the `||` fallbacks on lines 20-29). -/
def defaultConfig : Config :=
  { DEFAULT_OUTPUT_DIR := "./output"
    SD_RESIZE_MODE := 0
    SD_UPSCALE_MULTIPLIER := 4
    SD_UPSCALE_WIDTH := 512
    SD_UPSCALE_HEIGHT := 512
    SD_UPSCALER_1 := "R-ESRGAN 4x+"
    SD_UPSCALER_2 := "None" }

/-! ## Remote payloads (src/index.ts lines 48-62, 96-114, 124-135) -/

/-- `SDAPIPayload` for `/sdapi/v1/txt2img`.  Fields that the validator does
not coerce keep their raw JS value, exactly as the construction from `args`
does. -/
structure SDAPIPayload where
  prompt : JsVal
  negative_prompt : JsVal
  steps : JsVal
  width : JsVal
  height : JsVal
  cfg_scale : JsVal
  sampler_name : JsVal
  scheduler : JsVal
  seed : JsVal
  n_iter : JsVal
  restore_faces : Bool
  tiling : Bool
  distilled_cfg_scale : JsVal
  deriving DecidableEq

/-- The txt2img payload construction (lines 317-331), applied to the
validated-and-coerced arguments object. -/
def buildSDAPIPayload (v : JsObj) : SDAPIPayload :=
  { prompt := objGet v "prompt"
    negative_prompt := jsOr (objGet v "negative_prompt") (.prim (.pstr ""))
    steps := jsOr (objGet v "steps") (.prim (.pnum (Frac.ofInt 20)))
    width := jsOr (objGet v "width") (.prim (.pnum (Frac.ofInt 1024)))
    height := jsOr (objGet v "height") (.prim (.pnum (Frac.ofInt 1024)))
    cfg_scale := jsOr (objGet v "cfg_scale") (.prim (.pnum (Frac.ofInt 7)))
    sampler_name := jsOr (objGet v "sampler_name") (.prim (.pstr "Euler"))
    seed := jsNullish (objGet v "seed") (.prim (.pnum (Frac.ofInt (-1))))
    n_iter := jsOr (objGet v "batch_size") (.prim (.pnum (Frac.ofInt 1)))
    distilled_cfg_scale :=
      jsOr (objGet v "distilled_cfg_scale") (.prim (.pnum (Frac.tenths 35)))
    scheduler := jsOr (objGet v "scheduler_name") (.prim (.pstr "Simple"))
    tiling := jsBang2 (objGet v "tiling")
    restore_faces := jsBang2 (objGet v "restore_faces") }

/-- One element of `imageList`: base64 data plus original basename. -/
structure EncodedImage where
  data : String
  name : String
  deriving DecidableEq

/-- `UpscaleImagePayload` for `/sdapi/v1/extra-batch-images`. -/
structure UpscaleImagePayload where
  resize_mode : JsNum
  show_extras_results : Bool
  gfpgan_visibility : Int
  codeformer_visibility : Int
  codeformer_weight : Int
  upscaling_resize : JsVal
  upscaling_resize_w : JsVal
  upscaling_resize_h : JsVal
  upscaling_crop : Bool
  upscaler_1 : JsVal
  upscaler_2 : JsVal
  extras_upscaler_2_visibility : Int
  upscale_first : Bool
  imageList : List EncodedImage
  deriving DecidableEq

/-- `resizeModeNum` (line 398): `Number(args.resize_mode)` when the field is
present, else the process-configured default. -/
def resizeModeNum (cfg : Config) (v : JsObj) : JsNum :=
  if isDefined (objGet v "resize_mode") then jsToNumber (objGet v "resize_mode")
  else some (Frac.ofInt cfg.SD_RESIZE_MODE)

/-- The extra-batch-images payload construction (lines 400-415). -/
def buildUpscaleImagePayload (cfg : Config) (v : JsObj)
    (encodedImages : List EncodedImage) : UpscaleImagePayload :=
  { resize_mode := resizeModeNum cfg v
    show_extras_results := true
    gfpgan_visibility := 0
    codeformer_visibility := 0
    codeformer_weight := 0
    upscaling_resize :=
      jsNullish (objGet v "upscaling_resize")
        (.prim (.pnum (Frac.ofInt cfg.SD_UPSCALE_MULTIPLIER)))
    upscaling_resize_w :=
      jsNullish (objGet v "upscaling_resize_w")
        (.prim (.pnum (Frac.ofInt cfg.SD_UPSCALE_WIDTH)))
    upscaling_resize_h :=
      jsNullish (objGet v "upscaling_resize_h")
        (.prim (.pnum (Frac.ofInt cfg.SD_UPSCALE_HEIGHT)))
    upscaling_crop := true
    upscaler_1 :=
      jsNullish (objGet v "upscaler_1") (.prim (.pstr cfg.SD_UPSCALER_1))
    upscaler_2 :=
      jsNullish (objGet v "upscaler_2") (.prim (.pstr cfg.SD_UPSCALER_2))
    extras_upscaler_2_visibility := 0
    upscale_first := false
    imageList := encodedImages }

/-- `Img2ImgPayload` for `/sdapi/v1/img2img`. -/
structure Img2ImgPayload where
  init_images : List String
  prompt : String
  negative_prompt : String
  steps : JsVal
  cfg_scale : Int
  width : JsNum
  height : JsNum
  denoising_strength : JsVal
  sampler_name : String
  scheduler : String
  deriving DecidableEq

/-- The img2img payload construction (lines 460-471). -/
def buildImg2ImgPayload (v : JsObj) (base64Image : String)
    (prompt : String) (targetWidth targetHeight : JsNum) : Img2ImgPayload :=
  { init_images := [base64Image]
    prompt := prompt
    negative_prompt := ""
    steps := jsOr (objGet v "steps") (.prim (.pnum (Frac.ofInt 20)))
    cfg_scale := 7
    width := targetWidth
    height := targetHeight
    denoising_strength :=
      jsOr (objGet v "denoising_strength") (.prim (.pnum (Frac.tenths 7)))
    sampler_name := "Euler"
    scheduler := "Simple" }

instance {e a : Type} [DecidableEq e] [DecidableEq a] :
    DecidableEq (Except e a) := fun x y =>
  match x, y with
  | .ok u, .ok w => decidable_of_iff (u = w) (by simp)
  | .ok _, .error _ => isFalse (by simp)
  | .error _, .ok _ => isFalse (by simp)
  | .error u, .error w => decidable_of_iff (u = w) (by simp)

/-! ## Error model (MCP SDK `McpError`, axios failures) -/

/-- The three MCP error codes the source uses. -/
inductive ErrCode where
  | invalidParams
  | methodNotFound
  | internalError
  deriving DecidableEq

/-- JSON-RPC numeric value of each code. -/
def errCodeNum : ErrCode → Int
  | .invalidParams => -32602
  | .methodNotFound => -32601
  | .internalError => -32603

/-- An `McpError`: code plus the message passed to the constructor. -/
structure McpErr where
  code : ErrCode
  msg : String
  deriving DecidableEq

/-- `McpError.message` as the SDK builds it:
`MCP error <code>: <message>`. -/
def mcpMessage (e : McpErr) : String :=
  "MCP error " ++ toString (errCodeNum e.code) ++ ": " ++ e.msg

/-- An axios rejection: whether a response arrived, whether the request was
sent, the optional `response.data.error` body field, and `error.message`. -/
structure AxiosFailure where
  hasResponse : Bool
  hasRequest : Bool
  responseErr : Option String
  message : String
  deriving DecidableEq

/-- A value thrown inside the handler's `try` block. -/
inductive Thrown where
  | mcp (e : McpErr)
  | axios (f : AxiosFailure)
  | jsError (msg : String)
  deriving DecidableEq

/-- The handler's catch block (lines 490-502): axios errors become internal
errors with a prefixed message; every other thrown `Error` — including the
`McpError`s thrown by the dispatch itself — is re-wrapped into a NEW
`McpError` with code `InternalError` and the old error's `.message` text. -/
def translateCatch : Thrown → McpErr
  | .axios f =>
      ⟨.internalError,
        if f.hasResponse then
          "API error: " ++
            (match f.responseErr with
             | some e => if e = "" then f.message else e
             | none => f.message)
        else if f.hasRequest then "No response: " ++ f.message
        else "Request error: " ++ f.message⟩
  | .mcp e => ⟨.internalError, mcpMessage e⟩
  | .jsError m => ⟨.internalError, m⟩

/-! ## Remote data shapes (lines 64-83) -/

structure ModelInfo where
  title : String
  model_name : String
  hash : String
  sha256 : String
  filename : String
  config : String
  deriving DecidableEq

structure UpscalerInfo where
  name : String
  model_name : String
  model_path : String
  model_url : String
  scale : Frac
  deriving DecidableEq

/-! ## Observable effects and the oracle environment

Every network request and filesystem access the handler performs is recorded
in order in an effect trace; outbound payloads are carried in the trace so
that "what was sent" is observable.  (Written file bytes are image-codec
territory, out of scope per the spec; writes record the target path.) -/

inductive Effect where
  | netPostTxt2Img (p : SDAPIPayload)
  | netPostPngInfo (image : String)
  | netPostOptions (model : String)
  | netGetModels
  | netGetUpscalers
  | netPostExtraBatch (p : UpscaleImagePayload)
  | netPostImg2Img (p : Img2ImgPayload)
  | fsAccess (dir : String)
  | fsMkdir (dir : String)
  | fsRead (p : String)
  | fsWrite (path : String)
  deriving DecidableEq

/-- Oracle environment answering the handler's I/O: file contents (already
base64-encoded, fusing `readFile` with `Buffer.toString('base64')`), sharp
metadata keyed by file content, per-call remote responses, and the outcome of
the fire-and-forget img2img dispatch. -/
structure Env where
  dirExists : String → Bool
  readFileBase64 : String → Except String String
  uuid : Nat → String
  metaW : String → Option Frac
  metaH : String → Option Frac
  txt2img : SDAPIPayload → Except AxiosFailure (List String)
  pngInfo : String → Except AxiosFailure String
  postOptions : String → Except AxiosFailure Unit
  sdModels : Except AxiosFailure (List ModelInfo)
  upscalers : Except AxiosFailure (List UpscalerInfo)
  extraBatch : UpscaleImagePayload → Except AxiosFailure (List String)
  img2img : Except AxiosFailure Unit

/-- `ensureDirectoryExists` (lines 506-512): an access probe, then a
recursive mkdir only when the probe fails. -/
def ensureDirTrace (env : Env) (dir : String) : List Effect :=
  if env.dirExists dir then [.fsAccess dir] else [.fsAccess dir, .fsMkdir dir]

/-- Output-directory resolution (lines 314 and 385):
`args.output_path ? path.normalize(args.output_path.trim()) : DEFAULT`. -/
def resolveOutputDir (cfg : Config) (v : JsObj) : String :=
  if jsTruthy (objGet v "output_path") then
    pathNormalize (strTrim (jsValToString (objGet v "output_path")))
  else cfg.DEFAULT_OUTPUT_DIR

/-! ## Structured tool results -/

/-- One `generate_image` result entry (line 348). -/
structure GenArtifact where
  path : String
  parameters : String
  deriving DecidableEq

/-- The structured value each branch returns; the source serializes it into
a single text content block (`JSON.stringify` / template literals), which we
keep structured. -/
inductive ToolOutput where
  | genImages (artifacts : List GenArtifact)
  | modelTitles (titles : List String)
  | modelSet (msg : String)
  | upscalerNames (names : List String)
  | upscaled (paths : List String)
  | hiresMessage (text : String)
  deriving DecidableEq

/-! ## Tool branches (the arms of the `switch` on lines 307-488) -/

/-- The `invalid parameters` rejection every validated branch throws
(lines 311, 363, 382, 435). -/
def invalidParamsThrow : Thrown :=
  .mcp ⟨.invalidParams, "Invalid parameters"⟩

/-- The per-image loop of `generate_image` (lines 336-349): fetch png-info,
write `sd_<uuid>.png`, collect `{path, parameters}`. -/
def genLoop (env : Env) (dir : String) :
    Nat → List String → Except Thrown (List GenArtifact) × List Effect
  | _, [] => (.ok [], [])
  | i, img :: rest =>
      match env.pngInfo ("data:image/png;base64," ++ img) with
      | .error f => (.error (.axios f), [.netPostPngInfo img])
      | .ok info =>
          let outPath := pathJoin dir ("sd_" ++ env.uuid i ++ ".png")
          let tail := genLoop env dir (i + 1) rest
          match tail.1 with
          | .error e =>
              (.error e, .netPostPngInfo img :: .fsWrite outPath :: tail.2)
          | .ok arts =>
              (.ok ({ path := outPath, parameters := info } :: arts),
               .netPostPngInfo img :: .fsWrite outPath :: tail.2)

/-- `generate_image` (lines 308-352). -/
def generateImageBranch (cfg : Config) (env : Env) (args : JsArgs) :
    Except Thrown ToolOutput × List Effect :=
  match args with
  | .nonObject => (.error invalidParamsThrow, [])
  | .obj v0 =>
      if isGenerateImageArgs (.obj v0) then
        let v := coerceGenerateImageArgs v0
        let dir := resolveOutputDir cfg v
        let dirTrace := ensureDirTrace env dir
        let payload := buildSDAPIPayload v
        match env.txt2img payload with
        | .error f =>
            (.error (.axios f), dirTrace ++ [.netPostTxt2Img payload])
        | .ok images =>
            if images.isEmpty then
              (.error (.jsError "No images generated"),
               dirTrace ++ [.netPostTxt2Img payload])
            else
              let res := genLoop env dir 0 images
              (res.1.map ToolOutput.genImages,
               dirTrace ++ .netPostTxt2Img payload :: res.2)
      else (.error invalidParamsThrow, [])

/-- `get_sd_models` (lines 354-358). -/
def getSdModelsBranch (env : Env) :
    Except Thrown ToolOutput × List Effect :=
  match env.sdModels with
  | .error f => (.error (.axios f), [.netGetModels])
  | .ok ms => (.ok (.modelTitles (ms.map ModelInfo.title)), [.netGetModels])

/-- `set_sd_model` (lines 360-371). -/
def setSdModelBranch (env : Env) (args : JsArgs) :
    Except Thrown ToolOutput × List Effect :=
  match args with
  | .nonObject => (.error invalidParamsThrow, [])
  | .obj v =>
      if isSetModelArgs (.obj v) then
        let modelName := jsValToString (objGet v "model_name")
        match env.postOptions modelName with
        | .error f => (.error (.axios f), [.netPostOptions modelName])
        | .ok _ =>
            (.ok (.modelSet ("Model set to: " ++ modelName)),
             [.netPostOptions modelName])
      else (.error invalidParamsThrow, [])

/-- `get_sd_upscalers` (lines 373-377). -/
def getSdUpscalersBranch (env : Env) :
    Except Thrown ToolOutput × List Effect :=
  match env.upscalers with
  | .error f => (.error (.axios f), [.netGetUpscalers])
  | .ok us =>
      (.ok (.upscalerNames (us.map UpscalerInfo.name)), [.netGetUpscalers])

/-- The validated `images` field as a list of strings. -/
def imagesOf (v : JsObj) : List String :=
  match objGet v "images" with
  | .varr xs => xs.map primToString
  | _ => []

/-- The read-and-encode pass over the input images (lines 389-395). -/
def readImagesLoop (env : Env) :
    List String → Except Thrown (List EncodedImage) × List Effect
  | [] => (.ok [], [])
  | p :: rest =>
      match env.readFileBase64 p with
      | .error m => (.error (.jsError m), [.fsRead p])
      | .ok data =>
          let tail := readImagesLoop env rest
          match tail.1 with
          | .error e => (.error e, .fsRead p :: tail.2)
          | .ok es =>
              (.ok ({ data := data, name := basename p } :: es),
               .fsRead p :: tail.2)

/-- Node's TypeError message when `path.basename` receives `undefined`
(`args.images[i]` read past the end of the array, line 423). -/
def basenameUndefinedError : Thrown :=
  .jsError "The \"path\" argument must be of type string. Received undefined"

/-- The materialization loop of `upscale_images` (lines 420-427), indexed by
the RESPONSE images; `args.images[i]` is looked up by the response index. -/
def upscaleLoop (inputs : List String) (dir : String) :
    Nat → List String → Except Thrown (List String) × List Effect
  | _, [] => (.ok [], [])
  | i, _img :: rest =>
      match inputs[i]? with
      | none => (.error basenameUndefinedError, [])
      | some inp =>
          let outPath := pathJoin dir ("upscaled_" ++ basename inp)
          let tail := upscaleLoop inputs dir (i + 1) rest
          match tail.1 with
          | .error e => (.error e, .fsWrite outPath :: tail.2)
          | .ok ps => (.ok (outPath :: ps), .fsWrite outPath :: tail.2)

/-- `upscale_images` (lines 379-430). -/
def upscaleImagesBranch (cfg : Config) (env : Env) (args : JsArgs) :
    Except Thrown ToolOutput × List Effect :=
  match args with
  | .nonObject => (.error invalidParamsThrow, [])
  | .obj v =>
      if isUpscaleImagesArgs (.obj v) then
        let dir := resolveOutputDir cfg v
        let dirTrace := ensureDirTrace env dir
        let inputs := imagesOf v
        let reads := readImagesLoop env inputs
        match reads.1 with
        | .error e => (.error e, dirTrace ++ reads.2)
        | .ok encoded =>
            let payload := buildUpscaleImagePayload cfg v encoded
            match env.extraBatch payload with
            | .error f =>
                (.error (.axios f),
                 dirTrace ++ reads.2 ++ [.netPostExtraBatch payload])
            | .ok respImages =>
                if respImages.isEmpty then
                  (.error (.jsError "No images upscaled"),
                   dirTrace ++ reads.2 ++ [.netPostExtraBatch payload])
                else
                  let mat := upscaleLoop inputs dir 0 respImages
                  (mat.1.map ToolOutput.upscaled,
                   dirTrace ++ reads.2 ++ .netPostExtraBatch payload :: mat.2)
      else (.error invalidParamsThrow, [])

/-- Does one of the two markers of the prompt-extraction pattern start
here? -/
def markerAt (l : List Char) : Bool :=
  "\nNegative prompt:".data.isPrefixOf l || "Steps:".data.isPrefixOf l

/-- The lazy anchored match `/^(.+?)(?:\nNegative prompt:|Steps:)/s`
(line 453): consume characters one at a time (so the consumed prefix is
shortest and non-empty) until a marker starts at the remainder; the group-1
capture is the consumed prefix, reversed accumulator style. -/
def promptScan : List Char → List Char → Option (List Char)
  | _, [] => none
  | acc, c :: rest =>
      if markerAt rest then some (c :: acc).reverse
      else promptScan (c :: acc) rest

/-- Prompt recovery from the png-info text (lines 452-454):
`promptMatch ? promptMatch[1].trim() : ''`. -/
def extractPrompt (info : String) : String :=
  match promptScan [] info.data with
  | some cs => strTrim (charsStr cs)
  | none => ""

/-- The descriptive message `hires_fix_image` returns (line 482). -/
def hiresText (v : JsObj) (metaWidth metaHeight : Option Frac)
    (targetWidth targetHeight : JsNum) : String :=
  "Hires.fix request sent to Stable Diffusion (" ++
    jsValToString (jsOr (objGet v "hr_scale") (.prim (.pnum (Frac.ofInt 2)))) ++
    "x upscale from " ++ optNumToString metaWidth ++ "x" ++
    optNumToString metaHeight ++ " to " ++
    jsNumToString targetWidth ++ "x" ++ jsNumToString targetHeight ++
    "). The image will be saved to the SD output directory when processing" ++
    " completes. This will take a while on CPU."

/-- `(args.hr_scale || 2)` coerced by the multiplication on lines 444-445. -/
def hiresScale (v : JsObj) : JsNum :=
  jsToNumber (jsOr (objGet v "hr_scale") (.prim (.pnum (Frac.ofInt 2))))

/-- `Math.round((metadata.width || 1024) * (args.hr_scale || 2))`
(line 444). -/
def hiresTargetWidth (v : JsObj) (metaWidth : Option Frac) : JsNum :=
  mathRound (numMul (some (metaOr metaWidth (Frac.ofInt 1024))) (hiresScale v))

/-- `Math.round((metadata.height || 1024) * (args.hr_scale || 2))`
(line 445). -/
def hiresTargetHeight (v : JsObj) (metaHeight : Option Frac) : JsNum :=
  mathRound (numMul (some (metaOr metaHeight (Frac.ofInt 1024))) (hiresScale v))

/-- `hires_fix_image` (lines 432-485).  The img2img dispatch is recorded in
the trace but the branch's continuation never consults `env.img2img`: the
source attaches only an error-swallowing `.catch` and does not await the
request. -/
def hiresFixImageBranch (env : Env) (args : JsArgs) :
    Except Thrown ToolOutput × List Effect :=
  match args with
  | .nonObject => (.error invalidParamsThrow, [])
  | .obj v =>
      if isHiresFixImageArgs (.obj v) then
        let imagePath := jsValToString (objGet v "image_path")
        match env.readFileBase64 imagePath with
        | .error m => (.error (.jsError m), [.fsRead imagePath])
        | .ok content =>
            let base64Image := "data:image/png;base64," ++ content
            let mW := env.metaW content
            let mH := env.metaH content
            let targetWidth := hiresTargetWidth v mW
            let targetHeight := hiresTargetHeight v mH
            let prompt :=
              match env.pngInfo base64Image with
              | .error _ => ""
              | .ok info => extractPrompt info
            let payload :=
              buildImg2ImgPayload v base64Image prompt targetWidth targetHeight
            (.ok (.hiresMessage (hiresText v mW mH targetWidth targetHeight)),
             [.fsRead imagePath, .netPostPngInfo base64Image,
              .netPostImg2Img payload])
      else (.error invalidParamsThrow, [])

/-! ## The call-tool request handler (lines 305-503) -/

/-- The `try` body: the `switch` over the tool name, with the default arm
throwing a `MethodNotFound` `McpError` (line 488). -/
def callToolBody (cfg : Config) (env : Env) (name : String) (args : JsArgs) :
    Except Thrown ToolOutput × List Effect :=
  if name = "generate_image" then generateImageBranch cfg env args
  else if name = "get_sd_models" then getSdModelsBranch env
  else if name = "set_sd_model" then setSdModelBranch env args
  else if name = "get_sd_upscalers" then getSdUpscalersBranch env
  else if name = "upscale_images" then upscaleImagesBranch cfg env args
  else if name = "hires_fix_image" then hiresFixImageBranch env args
  else (.error (.mcp ⟨.methodNotFound, "Unknown tool: " ++ name⟩), [])

/-- The full handler: `try` body wrapped by the catch block, which rewrites
every thrown value through `translateCatch`. -/
def callTool (cfg : Config) (env : Env) (name : String) (args : JsArgs) :
    Except McpErr ToolOutput × List Effect :=
  let body := callToolBody cfg env name args
  (match body.1 with
   | .ok o => .ok o
   | .error t => .error (translateCatch t), body.2)


/-! ## Bridging lemmas: boolean range checks versus rational order -/

theorem Frac.toRat_ofInt (n : Int) : (Frac.ofInt n).toRat = (n : ℚ) := by
  simp [Frac.toRat, Frac.ofInt]

theorem Frac.blt_iff (a b : Frac) : Frac.blt a b = true ↔ a.toRat < b.toRat := by
  have ha : (0 : ℚ) < a.den := by exact_mod_cast a.dpos
  have hb : (0 : ℚ) < b.den := by exact_mod_cast b.dpos
  rw [Frac.blt, decide_eq_true_eq, Frac.toRat, Frac.toRat, div_lt_div_iff₀ ha hb]
  constructor
  · intro h; exact_mod_cast h
  · intro h; exact_mod_cast h

theorem Frac.blt_eq_false_iff (a b : Frac) :
    Frac.blt a b = false ↔ b.toRat ≤ a.toRat := by
  rw [← not_lt, ← Frac.blt_iff]
  cases h : Frac.blt a b <;> simp [h]

/-- `outOfRange` fails (the value passes the check) exactly when the number
is a non-NaN value inside the closed interval. -/
theorem outOfRange_eq_false_iff (n : JsNum) (lo hi : Frac) :
    outOfRange n lo hi = false ↔
      ∃ q, n = some q ∧ lo.toRat ≤ q.toRat ∧ q.toRat ≤ hi.toRat := by
  cases n with
  | none => simp [outOfRange]
  | some q =>
      simp only [outOfRange, Bool.or_eq_false_iff, Frac.blt_eq_false_iff,
        Option.some.injEq]
      constructor
      · rintro ⟨h1, h2⟩
        exact ⟨q, rfl, h1, h2⟩
      · rintro ⟨r, rfl, h1, h2⟩
        exact ⟨h1, h2⟩

/-! ## Sample oracle environments (concrete witnesses) -/

/-- A sample network failure (connection refused: no response, no request
object). -/
def sampleFailure : AxiosFailure :=
  { hasResponse := false
    hasRequest := false
    responseErr := none
    message := "connect ECONNREFUSED 127.0.0.1:7860" }

/-- A concrete oracle environment where every interaction succeeds. -/
def oracleEnv : Env :=
  { dirExists := fun _ => true
    readFileBase64 := fun _ => .ok "IMG"
    uuid := fun i => toString i
    metaW := fun _ => some (Frac.ofInt 512)
    metaH := fun _ => some (Frac.ofInt 512)
    txt2img := fun _ => .ok ["b64a"]
    pngInfo := fun _ => .ok "a cat\nNegative prompt: bad\nSteps: 20"
    postOptions := fun _ => .ok ()
    sdModels := .ok []
    upscalers := .ok []
    extraBatch := fun _ => .ok ["d1", "d2"]
    img2img := .ok () }

/-- `oracleEnv` with an extra-batch response of three images. -/
def oracleEnv3 : Env :=
  { oracleEnv with extraBatch := fun _ => .ok ["d1", "d2", "d3"] }

/-- The six registered tool names (the `ListTools` catalog and the `switch`
arms). -/
def toolNames : List String :=
  ["generate_image", "get_sd_models", "set_sd_model", "get_sd_upscalers",
   "upscale_images", "hires_fix_image"]

/-! ## C1 -/

/-- C1: for every tool-call request whose name is not one of the six
registered tools, the dispatch default arm throws a MethodNotFound McpError —
but the handler's own catch block re-wraps it, so the error the caller
receives carries the generic InternalError code (its message quoting the
original MethodNotFound text).  This refutes the claim that the handler
returns a method-not-found error and never a generic internal error; the
claim describes the thrown error, not the surfaced one. -/
theorem c1_unknown_tool_surfaces_internal_error (cfg : Config) (env : Env)
    (name : String) (args : JsArgs) (h : name ∉ toolNames) :
    callTool cfg env name args =
      (.error ⟨.internalError,
        mcpMessage ⟨.methodNotFound, "Unknown tool: " ++ name⟩⟩, []) := by
  simp only [toolNames, List.mem_cons, List.mem_singleton, not_or] at h
  obtain ⟨h1, h2, h3, h4, h5, h6, -⟩ := h
  simp [callTool, callToolBody, h1, h2, h3, h4, h5, h6, translateCatch]

/-- C1 witness: the concrete unknown tool "frobnicate" yields the
InternalError-coded error with the method-not-found text inside the message. -/
theorem c1_witness :
    callTool defaultConfig oracleEnv "frobnicate" (.obj []) =
      (.error ⟨.internalError,
        mcpMessage ⟨.methodNotFound, "Unknown tool: " ++ "frobnicate"⟩⟩, []) :=
  c1_unknown_tool_surfaces_internal_error defaultConfig oracleEnv
    "frobnicate" (.obj []) (by decide)

/-! ## C2 -/

/-- C2: when a validated tool's validator rejects the arguments, the call
aborts with an empty effect trace — no network request and no filesystem
access happens — which is the first half of the claim; but the error is
surfaced with the generic InternalError code (message quoting the
InvalidParams text), because the catch block re-wraps the thrown
InvalidParams McpError.  The "surfaced as an invalid-parameters error"
half of the claim fails. -/
theorem c2_invalid_params_aborts_before_io (cfg : Config) (env : Env)
    (name : String) (args : JsArgs)
    (h : (name = "generate_image" ∧ isGenerateImageArgs args = false) ∨
         (name = "set_sd_model" ∧ isSetModelArgs args = false) ∨
         (name = "upscale_images" ∧ isUpscaleImagesArgs args = false) ∨
         (name = "hires_fix_image" ∧ isHiresFixImageArgs args = false)) :
    callTool cfg env name args =
      (.error ⟨.internalError,
        mcpMessage ⟨.invalidParams, "Invalid parameters"⟩⟩, []) := by
  rcases h with ⟨rfl, hv⟩ | ⟨rfl, hv⟩ | ⟨rfl, hv⟩ | ⟨rfl, hv⟩ <;>
    cases args <;>
      simp_all [callTool, callToolBody, generateImageBranch, setSdModelBranch,
        upscaleImagesBranch, hiresFixImageBranch, invalidParamsThrow,
        translateCatch]

/-- C2 witness: a `generate_image` call whose arguments are not an object is
rejected with no I/O and an InternalError-coded error. -/
theorem c2_witness :
    callTool defaultConfig oracleEnv "generate_image" .nonObject =
      (.error ⟨.internalError,
        mcpMessage ⟨.invalidParams, "Invalid parameters"⟩⟩, []) :=
  c2_invalid_params_aborts_before_io defaultConfig oracleEnv
    "generate_image" .nonObject (.inl ⟨rfl, by decide⟩)

/-! ## C3 -/

/-- C3 counterexample: the claim fails on the `||`-defaulted fields — a
caller-supplied `cfg_scale` equal to `0` produces payload `cfg_scale = 7`
(not `0`), and a supplied `denoising_strength` equal to `0` produces
`denoising_strength = 0.7` (not `0`), because `||` replaces every falsy
value, not only absent/undefined ones. -/
theorem c3_counterexample :
    (buildSDAPIPayload [("prompt", .prim (.pstr "p")),
        ("cfg_scale", .prim (.pnum (Frac.ofInt 0)))]).cfg_scale =
      .prim (.pnum (Frac.ofInt 7)) ∧
    (buildSDAPIPayload [("prompt", .prim (.pstr "p")),
        ("cfg_scale", .prim (.pnum (Frac.ofInt 0)))]).cfg_scale ≠
      .prim (.pnum (Frac.ofInt 0)) ∧
    (buildImg2ImgPayload [("image_path", .prim (.pstr "a.png")),
        ("denoising_strength", .prim (.pnum (Frac.ofInt 0)))] "b" ""
        none none).denoising_strength = .prim (.pnum (Frac.tenths 7)) := by
  decide

/-- C3 (amended): every `||`-defaulted field (negative_prompt, steps,
width, height, cfg_scale, sampler_name, scheduler_name, batch_size/n_iter,
distilled_cfg_scale, denoising_strength) falls back to its default exactly
when the supplied value is falsy — absent/undefined, 0, NaN, "", false or
null — and copies a truthy supplied value unchanged; every `??`-defaulted
field (seed, upscaling_resize, upscaling_resize_w, upscaling_resize_h,
upscaler_1, upscaler_2) falls back exactly when the value is
absent/undefined or null and copies any other supplied value — including
0 — unchanged.  In particular cfg_scale = 0 yields 7,
denoising_strength = 0 yields 0.7, and seed = 0 yields 0. -/
theorem c3_amended_defaulting (cfg : Config) (v : JsObj) (b p : String)
    (w h : JsNum) (encoded : List EncodedImage) (q : Frac) :
    ((jsTruthy (objGet v "negative_prompt") = false →
        (buildSDAPIPayload v).negative_prompt = .prim (.pstr "")) ∧
     (jsTruthy (objGet v "negative_prompt") = true →
        (buildSDAPIPayload v).negative_prompt = objGet v "negative_prompt") ∧
     (jsTruthy (objGet v "steps") = false →
        (buildSDAPIPayload v).steps = .prim (.pnum (Frac.ofInt 20))) ∧
     (jsTruthy (objGet v "steps") = true →
        (buildSDAPIPayload v).steps = objGet v "steps") ∧
     (jsTruthy (objGet v "width") = false →
        (buildSDAPIPayload v).width = .prim (.pnum (Frac.ofInt 1024))) ∧
     (jsTruthy (objGet v "width") = true →
        (buildSDAPIPayload v).width = objGet v "width") ∧
     (jsTruthy (objGet v "height") = false →
        (buildSDAPIPayload v).height = .prim (.pnum (Frac.ofInt 1024))) ∧
     (jsTruthy (objGet v "height") = true →
        (buildSDAPIPayload v).height = objGet v "height") ∧
     (jsTruthy (objGet v "cfg_scale") = false →
        (buildSDAPIPayload v).cfg_scale = .prim (.pnum (Frac.ofInt 7))) ∧
     (jsTruthy (objGet v "cfg_scale") = true →
        (buildSDAPIPayload v).cfg_scale = objGet v "cfg_scale") ∧
     (jsTruthy (objGet v "sampler_name") = false →
        (buildSDAPIPayload v).sampler_name = .prim (.pstr "Euler")) ∧
     (jsTruthy (objGet v "sampler_name") = true →
        (buildSDAPIPayload v).sampler_name = objGet v "sampler_name") ∧
     (jsTruthy (objGet v "scheduler_name") = false →
        (buildSDAPIPayload v).scheduler = .prim (.pstr "Simple")) ∧
     (jsTruthy (objGet v "scheduler_name") = true →
        (buildSDAPIPayload v).scheduler = objGet v "scheduler_name") ∧
     (jsTruthy (objGet v "batch_size") = false →
        (buildSDAPIPayload v).n_iter = .prim (.pnum (Frac.ofInt 1))) ∧
     (jsTruthy (objGet v "batch_size") = true →
        (buildSDAPIPayload v).n_iter = objGet v "batch_size") ∧
     (jsTruthy (objGet v "distilled_cfg_scale") = false →
        (buildSDAPIPayload v).distilled_cfg_scale =
          .prim (.pnum (Frac.tenths 35))) ∧
     (jsTruthy (objGet v "distilled_cfg_scale") = true →
        (buildSDAPIPayload v).distilled_cfg_scale =
          objGet v "distilled_cfg_scale")) ∧
    ((jsTruthy (objGet v "denoising_strength") = false →
        (buildImg2ImgPayload v b p w h).denoising_strength =
          .prim (.pnum (Frac.tenths 7))) ∧
     (jsTruthy (objGet v "denoising_strength") = true →
        (buildImg2ImgPayload v b p w h).denoising_strength =
          objGet v "denoising_strength")) ∧
    ((objGet v "seed" = .prim .pundefined ∨ objGet v "seed" = .prim .pnull →
        (buildSDAPIPayload v).seed = .prim (.pnum (Frac.ofInt (-1)))) ∧
     (objGet v "seed" ≠ .prim .pundefined → objGet v "seed" ≠ .prim .pnull →
        (buildSDAPIPayload v).seed = objGet v "seed") ∧
     (objGet v "upscaling_resize" = .prim .pundefined ∨
        objGet v "upscaling_resize" = .prim .pnull →
        (buildUpscaleImagePayload cfg v encoded).upscaling_resize =
          .prim (.pnum (Frac.ofInt cfg.SD_UPSCALE_MULTIPLIER))) ∧
     (objGet v "upscaling_resize" ≠ .prim .pundefined →
        objGet v "upscaling_resize" ≠ .prim .pnull →
        (buildUpscaleImagePayload cfg v encoded).upscaling_resize =
          objGet v "upscaling_resize") ∧
     (objGet v "upscaling_resize_w" = .prim .pundefined ∨
        objGet v "upscaling_resize_w" = .prim .pnull →
        (buildUpscaleImagePayload cfg v encoded).upscaling_resize_w =
          .prim (.pnum (Frac.ofInt cfg.SD_UPSCALE_WIDTH))) ∧
     (objGet v "upscaling_resize_w" ≠ .prim .pundefined →
        objGet v "upscaling_resize_w" ≠ .prim .pnull →
        (buildUpscaleImagePayload cfg v encoded).upscaling_resize_w =
          objGet v "upscaling_resize_w") ∧
     (objGet v "upscaling_resize_h" = .prim .pundefined ∨
        objGet v "upscaling_resize_h" = .prim .pnull →
        (buildUpscaleImagePayload cfg v encoded).upscaling_resize_h =
          .prim (.pnum (Frac.ofInt cfg.SD_UPSCALE_HEIGHT))) ∧
     (objGet v "upscaling_resize_h" ≠ .prim .pundefined →
        objGet v "upscaling_resize_h" ≠ .prim .pnull →
        (buildUpscaleImagePayload cfg v encoded).upscaling_resize_h =
          objGet v "upscaling_resize_h") ∧
     (objGet v "upscaler_1" = .prim .pundefined ∨
        objGet v "upscaler_1" = .prim .pnull →
        (buildUpscaleImagePayload cfg v encoded).upscaler_1 =
          .prim (.pstr cfg.SD_UPSCALER_1)) ∧
     (objGet v "upscaler_1" ≠ .prim .pundefined →
        objGet v "upscaler_1" ≠ .prim .pnull →
        (buildUpscaleImagePayload cfg v encoded).upscaler_1 =
          objGet v "upscaler_1") ∧
     (objGet v "upscaler_2" = .prim .pundefined ∨
        objGet v "upscaler_2" = .prim .pnull →
        (buildUpscaleImagePayload cfg v encoded).upscaler_2 =
          .prim (.pstr cfg.SD_UPSCALER_2)) ∧
     (objGet v "upscaler_2" ≠ .prim .pundefined →
        objGet v "upscaler_2" ≠ .prim .pnull →
        (buildUpscaleImagePayload cfg v encoded).upscaler_2 =
          objGet v "upscaler_2")) ∧
    ((objGet v "cfg_scale" = .prim (.pnum q) → q.num = 0 →
        (buildSDAPIPayload v).cfg_scale = .prim (.pnum (Frac.ofInt 7))) ∧
     (objGet v "seed" = .prim (.pnum q) →
        (buildSDAPIPayload v).seed = .prim (.pnum q)) ∧
     (objGet v "denoising_strength" = .prim (.pnum q) → q.num = 0 →
        (buildImg2ImgPayload v b p w h).denoising_strength =
          .prim (.pnum (Frac.tenths 7)))) := by
  refine ⟨⟨?_, ?_, ?_, ?_, ?_, ?_, ?_, ?_, ?_, ?_, ?_, ?_, ?_, ?_, ?_, ?_,
    ?_, ?_⟩, ⟨?_, ?_⟩, ⟨?_, ?_, ?_, ?_, ?_, ?_, ?_, ?_, ?_, ?_, ?_, ?_⟩,
    ⟨?_, ?_, ?_⟩⟩ <;>
    intros <;>
      simp_all [buildSDAPIPayload, buildImg2ImgPayload,
        buildUpscaleImagePayload, jsOr, jsNullish, jsTruthy]

/-- C3 witness: the amended claim at concrete inputs — absent `cfg_scale`
defaults to `7`, a supplied `seed = 0` stays `0`, a supplied
`denoising_strength = 0` becomes `0.7`, and a supplied
`upscaling_resize = 0` (a `??` field) stays `0`. -/
theorem c3_amended_witness :
    (buildSDAPIPayload [("prompt", .prim (.pstr "p"))]).cfg_scale =
      .prim (.pnum (Frac.ofInt 7)) ∧
    (buildSDAPIPayload [("prompt", .prim (.pstr "p")),
        ("seed", .prim (.pnum (Frac.ofInt 0)))]).seed =
      .prim (.pnum (Frac.ofInt 0)) ∧
    (buildImg2ImgPayload [("image_path", .prim (.pstr "a.png")),
        ("denoising_strength", .prim (.pnum (Frac.ofInt 0)))] "b" ""
        none none).denoising_strength = .prim (.pnum (Frac.tenths 7)) ∧
    (buildUpscaleImagePayload defaultConfig
        [("images", .varr [.pstr "a.png"]),
         ("upscaling_resize", .prim (.pnum (Frac.ofInt 0)))]
        []).upscaling_resize = .prim (.pnum (Frac.ofInt 0)) := by
  refine ⟨?_, ?_, ?_, ?_⟩
  · obtain ⟨⟨-, -, -, -, -, -, -, -, hcf, -⟩, -⟩ :=
      c3_amended_defaulting defaultConfig [("prompt", .prim (.pstr "p"))]
        "b" "" none none [] (Frac.ofInt 0)
    exact hcf (by decide)
  · obtain ⟨-, -, -, -, hseed, -⟩ :=
      c3_amended_defaulting defaultConfig [("prompt", .prim (.pstr "p")),
        ("seed", .prim (.pnum (Frac.ofInt 0)))] "b" "" none none []
        (Frac.ofInt 0)
    exact hseed (by decide)
  · obtain ⟨-, -, -, -, -, hden⟩ :=
      c3_amended_defaulting defaultConfig
        [("image_path", .prim (.pstr "a.png")),
         ("denoising_strength", .prim (.pnum (Frac.ofInt 0)))] "b" ""
        none none [] (Frac.ofInt 0)
    exact hden (by decide) (by decide)
  · obtain ⟨-, -, ⟨-, -, -, hup, -⟩, -⟩ :=
      c3_amended_defaulting defaultConfig
        [("images", .varr [.pstr "a.png"]),
         ("upscaling_resize", .prim (.pnum (Frac.ofInt 0)))] "b" ""
        none none [] (Frac.ofInt 0)
    exact hup (by decide) (by decide)

/-! ## C4 -/

/-- `isString` holds exactly of string primitives. -/
theorem isString_iff (x : JsVal) :
    isString x = true ↔ ∃ s, x = .prim (.pstr s) := by
  cases x with
  | prim p => cases p <;> simp [isString]
  | varr xs => simp [isString]

/-- C4 counterexample: an arguments object whose prompt is the empty string
IS accepted by `isGenerateImageArgs` — the claim says it is rejected. -/
theorem c4_counterexample :
    isGenerateImageArgs (.obj [("prompt", .prim (.pstr ""))]) = true := by
  decide

/-- C4 (amended): every set of arguments accepted by the generate_image
validator has a prompt that is a string — possibly empty; the validator
checks only `typeof prompt === 'string'` and never non-emptiness. -/
theorem c4_amended_prompt_is_string (o : JsObj)
    (h : isGenerateImageArgs (.obj o) = true) :
    ∃ s, objGet o "prompt" = .prim (.pstr s) := by
  rw [← isString_iff]
  by_contra hp
  simp only [Bool.not_eq_true] at hp
  simp [isGenerateImageArgs, hp] at h

/-- C4 witness: the amended claim applied to a concrete accepted object. -/
theorem c4_amended_witness :
    ∃ s, objGet [("prompt", .prim (.pstr "a cat"))] "prompt" =
      .prim (.pstr s) :=
  c4_amended_prompt_is_string [("prompt", .prim (.pstr "a cat"))] (by decide)

/-! ## C5 -/

/-- C5 counterexample: the upscale validator accepts an empty `images` array
and accepts an empty-string element — the claim says both are rejected. -/
theorem c5_counterexample :
    isUpscaleImagesArgs (.obj [("images", .varr [])]) = true ∧
    isUpscaleImagesArgs (.obj [("images", .varr [.pstr ""])]) = true := by
  decide

/-- C5 (amended): every set of arguments accepted by the upscale_images
validator has an `images` field that is an array whose elements are all
strings; the array may be empty and elements may be empty strings. -/
theorem c5_amended_images_all_strings (o : JsObj)
    (h : isUpscaleImagesArgs (.obj o) = true) :
    ∃ xs, objGet o "images" = .varr xs ∧ ∀ p ∈ xs, ∃ s, p = .pstr s := by
  by_cases ha : isStringArray (objGet o "images")
  · cases hv : objGet o "images" with
    | prim p => rw [hv] at ha; cases p <;> simp [isStringArray] at ha
    | varr xs =>
        refine ⟨xs, rfl, ?_⟩
        intro p hp
        rw [hv] at ha
        simp only [isStringArray, List.all_eq_true] at ha
        have := ha p hp
        cases p <;> simp_all
  · simp only [Bool.not_eq_true] at ha
    simp [isUpscaleImagesArgs, ha] at h

/-- C5 witness: the amended claim applied to a concrete accepted object. -/
theorem c5_amended_witness :
    ∃ xs, objGet [("images", .varr [.pstr "a.png"])] "images" = .varr xs ∧
      ∀ p ∈ xs, ∃ s, p = .pstr s :=
  c5_amended_images_all_strings [("images", .varr [.pstr "a.png"])]
    (by decide)

/-! ## C6 -/

/-- C6: the `hires_fix_image` result is computed from local data only.  For
any two outcomes of the background img2img dispatch the branch result (value
AND trace) is identical, and under a valid call whose source image read
succeeds, the returned value is the descriptive message built from the scale
factor and the source/target dimensions — also when the dispatch outcome is
an error or timeout, which is thereby suppressed and never surfaces. -/
theorem c6_fire_and_forget (env : Env) (v : JsObj) (content : String)
    (f : AxiosFailure)
    (hval : isHiresFixImageArgs (.obj v) = true)
    (hread : env.readFileBase64 (jsValToString (objGet v "image_path")) =
      .ok content) :
    (∀ o1 o2 : Except AxiosFailure Unit,
       hiresFixImageBranch { env with img2img := o1 } (.obj v) =
         hiresFixImageBranch { env with img2img := o2 } (.obj v)) ∧
    (hiresFixImageBranch { env with img2img := .error f } (.obj v)).1 =
      .ok (.hiresMessage (hiresText v (env.metaW content) (env.metaH content)
        (hiresTargetWidth v (env.metaW content))
        (hiresTargetHeight v (env.metaH content)))) := by
  constructor
  · intro o1 o2
    rfl
  · simp [hiresFixImageBranch, hval, hread]

set_option maxRecDepth 10000 in
/-- C6 witness: a concrete valid call against an environment whose img2img
dispatch fails still returns the full descriptive message. -/
theorem c6_witness :
    (hiresFixImageBranch { oracleEnv with img2img := .error sampleFailure }
      (.obj [("image_path", .prim (.pstr "a.png"))])).1 =
      .ok (.hiresMessage
        ("Hires.fix request sent to Stable Diffusion (2x upscale from " ++
         "512x512 to 1024x1024). The image will be saved to the SD output " ++
         "directory when processing completes. This will take a while on " ++
         "CPU.")) := by
  have h := (c6_fire_and_forget oracleEnv
    [("image_path", .prim (.pstr "a.png"))] "IMG" sampleFailure
    (by decide) rfl).2
  rw [h]
  decide

/-! ## C7 -/

/-- A nested pair of rejection tests, as the validator chains them. -/
theorem if_chain_true (a b : Bool) :
    (if a then false else if b then false else true) = true ↔
      a = false ∧ b = false := by
  cases a <;> cases b <;> simp

/-- The per-field pattern `field !== undefined && (isNaN || out of bounds)`
fails (the field passes) exactly when the field is absent/undefined or its
coercion lands inside the closed range. -/
theorem validCheck_iff (x : JsVal) (lo hi : Frac) :
    (isDefined x && outOfRange (jsToNumber x) lo hi) = false ↔
      (x = .prim .pundefined ∨
       ∃ q, jsToNumber x = some q ∧
         lo.toRat ≤ q.toRat ∧ q.toRat ≤ hi.toRat) := by
  by_cases hd : x = .prim .pundefined
  · subst hd
    simp [isDefined]
  · have hdef : isDefined x = true := by simp [isDefined, hd]
    simp [hdef, hd, outOfRange_eq_false_iff]

/-- C7: for arguments whose prompt is a string and whose negative_prompt is
absent or a string, generate_image validation succeeds exactly when the
coerced `steps` lies in [1,150] (or is absent) and the coerced `batch_size`
lies in [1,4] (or is absent); a NaN coercion or an out-of-bounds value is
rejected. -/
theorem c7_steps_batch_bounds (o : JsObj) (s : String)
    (hp : objGet o "prompt" = .prim (.pstr s))
    (hn : objGet o "negative_prompt" = .prim .pundefined ∨
          ∃ t, objGet o "negative_prompt" = .prim (.pstr t)) :
    isGenerateImageArgs (.obj o) = true ↔
      ((objGet o "steps" = .prim .pundefined ∨
        ∃ q, jsToNumber (objGet o "steps") = some q ∧
          1 ≤ q.toRat ∧ q.toRat ≤ 150) ∧
       (objGet o "batch_size" = .prim .pundefined ∨
        ∃ q, jsToNumber (objGet o "batch_size") = some q ∧
          1 ≤ q.toRat ∧ q.toRat ≤ 4)) := by
  have hps : isString (objGet o "prompt") = true := by rw [hp]; rfl
  have hns : (isDefined (objGet o "negative_prompt") &&
      !isString (objGet o "negative_prompt")) = false := by
    rcases hn with h | ⟨t, h⟩ <;> rw [h] <;> rfl
  have e1 : (Frac.ofInt 1).toRat = (1 : ℚ) := by
    simp [Frac.toRat_ofInt]
  have e150 : (Frac.ofInt 150).toRat = (150 : ℚ) := by
    simp [Frac.toRat_ofInt]
  have e4 : (Frac.ofInt 4).toRat = (4 : ℚ) := by
    simp [Frac.toRat_ofInt]
  have hu : isGenerateImageArgs (.obj o) =
      (if isDefined (objGet o "steps") &&
          outOfRange (jsToNumber (objGet o "steps"))
            (Frac.ofInt 1) (Frac.ofInt 150) then false
       else if isDefined (objGet o "batch_size") &&
          outOfRange (jsToNumber (objGet o "batch_size"))
            (Frac.ofInt 1) (Frac.ofInt 4) then false
       else true) := by
    simp [isGenerateImageArgs, hps, hns]
  rw [hu, if_chain_true, validCheck_iff, validCheck_iff, e1, e150, e4]

/-- C7 witness: the characterization at a concrete object with
`steps = 150`. -/
theorem c7_witness :
    isGenerateImageArgs (.obj [("prompt", .prim (.pstr "x")),
        ("steps", .prim (.pnum (Frac.ofInt 150)))]) = true ↔
      ((objGet [("prompt", .prim (.pstr "x")),
          ("steps", .prim (.pnum (Frac.ofInt 150)))] "steps" =
            .prim .pundefined ∨
        ∃ q, jsToNumber (objGet [("prompt", .prim (.pstr "x")),
          ("steps", .prim (.pnum (Frac.ofInt 150)))] "steps") = some q ∧
          1 ≤ q.toRat ∧ q.toRat ≤ 150) ∧
       (objGet [("prompt", .prim (.pstr "x")),
          ("steps", .prim (.pnum (Frac.ofInt 150)))] "batch_size" =
            .prim .pundefined ∨
        ∃ q, jsToNumber (objGet [("prompt", .prim (.pstr "x")),
          ("steps", .prim (.pnum (Frac.ofInt 150)))] "batch_size") = some q ∧
          1 ≤ q.toRat ∧ q.toRat ≤ 4)) :=
  c7_steps_batch_bounds
    [("prompt", .prim (.pstr "x")), ("steps", .prim (.pnum (Frac.ofInt 150)))]
    "x" (by decide) (.inl (by decide))

/-! ## C8 -/

/-- C8: the upscale payload's `resize_mode` is the number `1` when the input
string is `"1"`, the number `0` when it is `"0"`, and the process-configured
default when the field is absent; and any accepted arguments object has
`resize_mode` absent or equal to one of these two strings (anything else is
rejected at validation). -/
theorem c8_resize_mode_round_trip (cfg : Config) (v : JsObj)
    (encoded : List EncodedImage) :
    ((objGet v "resize_mode" = .prim (.pstr "1") →
        (buildUpscaleImagePayload cfg v encoded).resize_mode =
          some (Frac.ofInt 1)) ∧
     (objGet v "resize_mode" = .prim (.pstr "0") →
        (buildUpscaleImagePayload cfg v encoded).resize_mode =
          some (Frac.ofInt 0)) ∧
     (objGet v "resize_mode" = .prim .pundefined →
        (buildUpscaleImagePayload cfg v encoded).resize_mode =
          some (Frac.ofInt cfg.SD_RESIZE_MODE)) ∧
     (isUpscaleImagesArgs (.obj v) = true →
        objGet v "resize_mode" = .prim .pundefined ∨
        objGet v "resize_mode" = .prim (.pstr "0") ∨
        objGet v "resize_mode" = .prim (.pstr "1"))) := by
  refine ⟨?_, ?_, ?_, ?_⟩
  · intro h
    have : (buildUpscaleImagePayload cfg v encoded).resize_mode =
        jsToNumber (.prim (.pstr "1")) := by
      simp [buildUpscaleImagePayload, resizeModeNum, h, isDefined]
    rw [this]
    decide
  · intro h
    have : (buildUpscaleImagePayload cfg v encoded).resize_mode =
        jsToNumber (.prim (.pstr "0")) := by
      simp [buildUpscaleImagePayload, resizeModeNum, h, isDefined]
    rw [this]
    decide
  · intro h
    simp [buildUpscaleImagePayload, resizeModeNum, h, isDefined]
  · intro h
    by_cases hd : objGet v "resize_mode" = .prim .pundefined
    · exact .inl hd
    · have hdef : isDefined (objGet v "resize_mode") = true := by
        simp [isDefined, hd]
      by_cases ha : isStringArray (objGet v "images")
      · rw [isUpscaleImagesArgs] at h
        simp only [ha, Bool.not_true, Bool.false_eq_true, if_false] at h
        by_cases hc : (objGet v "resize_mode" = JsVal.prim (.pstr "0") ||
            objGet v "resize_mode" = JsVal.prim (.pstr "1")) = true
        · rcases Bool.or_eq_true_iff.mp hc with h0 | h1
          · exact .inr (.inl (of_decide_eq_true h0))
          · exact .inr (.inr (of_decide_eq_true h1))
        · simp only [hdef, Bool.true_and, hc, Bool.not_false,
            if_true] at h
          simp at h
      · rw [isUpscaleImagesArgs] at h
        simp [ha] at h

/-- C8 witness: the round trip at the concrete input string "1". -/
theorem c8_witness :
    (buildUpscaleImagePayload defaultConfig
      [("images", .varr [.pstr "a.png"]), ("resize_mode", .prim (.pstr "1"))]
      []).resize_mode = some (Frac.ofInt 1) :=
  (c8_resize_mode_round_trip defaultConfig
    [("images", .varr [.pstr "a.png"]), ("resize_mode", .prim (.pstr "1"))]
    []).1 (by decide)

/-! ## C9 and C10: the upscale materialization loop -/

theorem map_primToString_pstr (paths : List String) :
    List.map (primToString ∘ JsPrim.pstr) paths = paths := by
  induction paths with
  | nil => rfl
  | cons a t iht => simp_all [primToString]

/-- A validated `images` field of string elements denotes its string list. -/
theorem imagesOf_eq (v : JsObj) (paths : List String)
    (h : objGet v "images" = .varr (paths.map JsPrim.pstr)) :
    imagesOf v = paths := by
  have h2 : imagesOf v = List.map primToString (paths.map JsPrim.pstr) := by
    rw [imagesOf, h]
  rw [h2, List.map_map, map_primToString_pstr]

/-- When every input file read succeeds, the read-and-encode pass succeeds. -/
theorem readImagesLoop_ok (env : Env) (l : List String)
    (h : ∀ p ∈ l, ∃ d, env.readFileBase64 p = .ok d) :
    ∃ es, (readImagesLoop env l).1 = .ok es := by
  induction l with
  | nil => exact ⟨[], rfl⟩
  | cons p rest ih =>
      obtain ⟨d, hd⟩ := h p (by simp)
      obtain ⟨es, hes⟩ := ih (fun x hx => h x (by simp [hx]))
      refine ⟨{ data := d, name := basename p } :: es, ?_⟩
      simp [readImagesLoop, hd, hes]

/-- In-bounds materialization: when the response reaches at most the length
of the input list, the loop succeeds and the produced paths are obtained,
in order, from the basenames of the corresponding inputs. -/
theorem upscaleLoop_ok (dir : String) (inputs : List String)
    (resp : List String) :
    ∀ i : Nat, i + resp.length ≤ inputs.length →
      (upscaleLoop inputs dir i resp).1 =
        .ok (((inputs.drop i).take resp.length).map
          (fun inp => pathJoin dir ("upscaled_" ++ basename inp))) := by
  induction resp with
  | nil =>
      intro i _
      simp [upscaleLoop]
  | cons r rest ih =>
      intro i h
      have hi : i < inputs.length := by
        simp only [List.length_cons] at h
        omega
      have hih := ih (i + 1) (by simp only [List.length_cons] at h; omega)
      simp only [upscaleLoop, List.getElem?_eq_getElem hi, hih,
        List.length_cons]
      rw [List.drop_eq_getElem_cons hi, List.take_succ_cons, List.map_cons]

/-- Out-of-bounds materialization: a response strictly longer than the
remaining inputs drives `args.images[i]` past the end of the array, and the
loop fails with the basename TypeError. -/
theorem upscaleLoop_overflow (dir : String) (inputs : List String)
    (resp : List String) :
    ∀ i : Nat, resp ≠ [] → inputs.length < i + resp.length →
      (upscaleLoop inputs dir i resp).1 = .error basenameUndefinedError := by
  induction resp with
  | nil =>
      intro i hne _
      exact absurd rfl hne
  | cons r rest ih =>
      intro i _ h
      by_cases hi : i < inputs.length
      · have hrest : rest ≠ [] := by
          intro he
          subst he
          simp only [List.length_cons, List.length_nil] at h
          omega
        have hih := ih (i + 1) hrest
          (by simp only [List.length_cons] at h ⊢; omega)
        simp [upscaleLoop, List.getElem?_eq_getElem hi, hih]
      · have hnone : inputs[i]? = none := by
          rw [List.getElem?_eq_none]
          omega
        simp [upscaleLoop, hnone]

/-- C9: for every successful upscale_images call whose remote response has
exactly as many images as the input list, the returned artifact paths are
`<outputDir>/upscaled_<basename of input i>` in input order — response index
i corresponds to input index i. -/
theorem c9_upscale_order (cfg : Config) (env : Env) (v : JsObj)
    (paths resp : List String)
    (himg : objGet v "images" = .varr (paths.map JsPrim.pstr))
    (hval : isUpscaleImagesArgs (.obj v) = true)
    (hread : ∀ p, ∃ d, env.readFileBase64 p = .ok d)
    (hresp : ∀ pl, env.extraBatch pl = .ok resp)
    (hlen : resp.length = paths.length)
    (hne : resp ≠ []) :
    (upscaleImagesBranch cfg env (.obj v)).1 =
      .ok (.upscaled (paths.map (fun p =>
        pathJoin (resolveOutputDir cfg v) ("upscaled_" ++ basename p)))) := by
  have hin : imagesOf v = paths := imagesOf_eq v paths himg
  obtain ⟨es, hes⟩ := readImagesLoop_ok env paths (fun p _ => hread p)
  have hloop := upscaleLoop_ok (resolveOutputDir cfg v) paths resp 0
    (by omega)
  rw [List.drop_zero, hlen, List.take_length] at hloop
  simp [upscaleImagesBranch, hval, hin, hes, hresp, hne, hloop, Except.map]

/-- C9 witness: two inputs, two response images, artifacts in input order. -/
theorem c9_witness :
    (upscaleImagesBranch defaultConfig oracleEnv
      (.obj [("images", .varr [.pstr "a.png", .pstr "b.png"])])).1 =
      .ok (.upscaled
        ["./output/upscaled_a.png", "./output/upscaled_b.png"]) := by
  have h := c9_upscale_order defaultConfig oracleEnv
    [("images", .varr [.pstr "a.png", .pstr "b.png"])]
    ["a.png", "b.png"] ["d1", "d2"] (by decide) (by decide)
    (fun p => ⟨"IMG", rfl⟩) (fun pl => rfl) (by decide) (by decide)
  rw [h]
  decide

/-- C10: the materialization loop indexes the input list by the response
index.  When the response is strictly longer than the input list the loop
reads `args.images[i]` out of range and the call fails with the basename
TypeError (producing no artifact list); when the response is at most as long
as the input list, every produced path derives from the basename of the
corresponding input. -/
theorem c10_response_indexing (cfg : Config) (env : Env) (v : JsObj)
    (paths resp : List String)
    (himg : objGet v "images" = .varr (paths.map JsPrim.pstr))
    (hval : isUpscaleImagesArgs (.obj v) = true)
    (hread : ∀ p, ∃ d, env.readFileBase64 p = .ok d)
    (hresp : ∀ pl, env.extraBatch pl = .ok resp) :
    (resp.length > paths.length →
      (upscaleImagesBranch cfg env (.obj v)).1 =
        .error basenameUndefinedError) ∧
    (resp.length ≤ paths.length → resp ≠ [] →
      (upscaleImagesBranch cfg env (.obj v)).1 =
        .ok (.upscaled ((paths.take resp.length).map (fun p =>
          pathJoin (resolveOutputDir cfg v) ("upscaled_" ++ basename p))))) := by
  have hin : imagesOf v = paths := imagesOf_eq v paths himg
  obtain ⟨es, hes⟩ := readImagesLoop_ok env paths (fun p _ => hread p)
  constructor
  · intro hgt
    have hne : resp ≠ [] := by
      intro he
      subst he
      simp at hgt
    have hloop := upscaleLoop_overflow (resolveOutputDir cfg v) paths resp 0
      hne (by omega)
    simp [upscaleImagesBranch, hval, hin, hes, hresp, hne, hloop, Except.map]
  · intro hle hne
    have hloop := upscaleLoop_ok (resolveOutputDir cfg v) paths resp 0
      (by omega)
    rw [List.drop_zero] at hloop
    simp [upscaleImagesBranch, hval, hin, hes, hresp, hne, hloop, Except.map]

/-- C10 witness: a three-image response against a two-image input fails the
call with the basename TypeError. -/
theorem c10_witness :
    (upscaleImagesBranch defaultConfig oracleEnv3
      (.obj [("images", .varr [.pstr "a.png", .pstr "b.png"])])).1 =
      .error basenameUndefinedError :=
  (c10_response_indexing defaultConfig oracleEnv3
    [("images", .varr [.pstr "a.png", .pstr "b.png"])]
    ["a.png", "b.png"] ["d1", "d2", "d3"] (by decide) (by decide)
    (fun p => ⟨"IMG", rfl⟩) (fun pl => rfl)).1 (by decide)

end ImageGen
